import Mathlib

/-
Verification of the image-ingestion pipeline of the photo-gallery
application (gallery/models.py).

The development shallowly embeds the pure logic of the pipeline:

* Python values that occur as (raw or sanitized) EXIF metadata are
  modelled by the inductive type `Value`.  Exotic leaf types such as
  PIL rationals are modelled by the constructor `vExotic`, which
  carries the result of an attempted float conversion (`none` when
  the conversion raises) together with the textual form produced by
  str().
* Fallible Python operations (float(), dict subscription, attribute
  access, tuple unpacking) return `Except String`; a Python
  try/except block becomes a match on the `Except` result.
* Machine floats are modelled by rationals; the claims settled here
  are either exact at the inputs involved or independent of float
  rounding.
* Stateful behaviour (the save hook, the post-delete hook) is
  modelled by explicit state passing.
-/

namespace Gallery

/-- Model of the Python values flowing through the metadata pipeline.
Dictionaries are association lists in insertion order (Python dicts
preserve insertion order); both lists and tuples are carried, since
`_make_json_safe` maps tuples to lists.  `vExotic conv txt` models a
value of any other type: `conv` is `some q` when float() succeeds
with value `q` and `none` when float() raises; `txt` is its str()
form. -/
inductive Value : Type where
  | vNone : Value
  | vBool : Bool → Value
  | vInt : Int → Value
  | vFloat : ℚ → Value
  | vStr : String → Value
  | vList : List Value → Value
  | vTuple : List Value → Value
  | vDict : List (String × Value) → Value
  | vExotic : Option ℚ → String → Value

/-- Model of Python float(x): succeeds on bools, ints, floats and on
exotic values whose conversion is recorded as succeeding; raises
otherwise.  (Numeric strings, which float() would parse, do not arise
in the sanitized EXIF data handled here and are modelled as failing.) -/
def pyFloat : Value → Except String ℚ
  | .vBool b => .ok (if b then 1 else 0)
  | .vInt n => .ok (n : ℚ)
  | .vFloat q => .ok q
  | .vExotic (some q) _ => .ok q
  | .vExotic none _ => .error "could not convert to float"
  | .vNone => .error "could not convert NoneType to float"
  | .vStr _ => .error "could not convert str to float"
  | .vList _ => .error "could not convert list to float"
  | .vTuple _ => .error "could not convert tuple to float"
  | .vDict _ => .error "could not convert dict to float"

/-- Embedding of `_make_json_safe` (models.py lines 12-24): primitives
pass through, dicts and lists/tuples recurse (tuples become lists),
any other value is converted with float() and, when that raises, with
str(). -/
def _make_json_safe : Value → Value
  | .vNone => .vNone
  | .vBool b => .vBool b
  | .vInt n => .vInt n
  | .vFloat q => .vFloat q
  | .vStr s => .vStr s
  | .vDict kvs => .vDict (kvs.attach.map (fun ⟨(k, v), _⟩ => (k, _make_json_safe v)))
  | .vList xs => .vList (xs.attach.map (fun ⟨v, _⟩ => _make_json_safe v))
  | .vTuple xs => .vList (xs.attach.map (fun ⟨v, _⟩ => _make_json_safe v))
  | .vExotic conv txt =>
      match pyFloat (.vExotic conv txt) with
      | .ok q => .vFloat q
      | .error _ => .vStr txt
decreasing_by
  all_goals simp_wf
  all_goals (rename_i hmem; have := List.sizeOf_lt_of_mem hmem; simp at this ⊢; omega)

/-- Spec-side definition for claim C6, written from the words of the
spec: primitive leaves pass through unchanged, mappings and sequences
recurse element-wise preserving structure and element order (Python
sequences come back as lists).  On exotic leaves, which C6 excludes
from its scope, it is the identity. -/
def specSanitize : Value → Value
  | .vNone => .vNone
  | .vBool b => .vBool b
  | .vInt n => .vInt n
  | .vFloat q => .vFloat q
  | .vStr s => .vStr s
  | .vDict kvs => .vDict (kvs.attach.map (fun ⟨(k, v), _⟩ => (k, specSanitize v)))
  | .vList xs => .vList (xs.attach.map (fun ⟨v, _⟩ => specSanitize v))
  | .vTuple xs => .vList (xs.attach.map (fun ⟨v, _⟩ => specSanitize v))
  | .vExotic conv txt => .vExotic conv txt
decreasing_by
  all_goals simp_wf
  all_goals (rename_i hmem; have := List.sizeOf_lt_of_mem hmem; simp at this ⊢; omega)

/-- Values built only of primitives, mappings and ordered sequences
(the input domain of claim C6): no exotic leaves. -/
inductive JsonOnly : Value → Prop where
  | jnone : JsonOnly .vNone
  | jbool : ∀ b, JsonOnly (.vBool b)
  | jint : ∀ n, JsonOnly (.vInt n)
  | jfloat : ∀ q, JsonOnly (.vFloat q)
  | jstr : ∀ s, JsonOnly (.vStr s)
  | jlist : ∀ xs, (∀ v ∈ xs, JsonOnly v) → JsonOnly (.vList xs)
  | jtuple : ∀ xs, (∀ v ∈ xs, JsonOnly v) → JsonOnly (.vTuple xs)
  | jdict : ∀ kvs, (∀ kv ∈ kvs, JsonOnly kv.2) → JsonOnly (.vDict kvs)

/-- JSON-representable values: primitives, lists and string-keyed
mappings only — no tuples (Python-only) and no exotic leaves.  This is
the co-domain discipline of the sanitizer. -/
inductive JsonSafe : Value → Prop where
  | snone : JsonSafe .vNone
  | sbool : ∀ b, JsonSafe (.vBool b)
  | sint : ∀ n, JsonSafe (.vInt n)
  | sfloat : ∀ q, JsonSafe (.vFloat q)
  | sstr : ∀ s, JsonSafe (.vStr s)
  | slist : ∀ xs, (∀ v ∈ xs, JsonSafe v) → JsonSafe (.vList xs)
  | sdict : ∀ kvs, (∀ kv ∈ kvs, JsonSafe kv.2) → JsonSafe (.vDict kvs)

/-- First-match lookup in an association list; agrees with Python dict
lookup because Python dict keys are unique. -/
def lookupStr : List (String × Value) → String → Option Value
  | [], _ => none
  | (k, v) :: tl, key => if key = k then some v else lookupStr tl key

/-- Python truthiness of a metadata value (`if not gps`). Exotic
numeric wrappers are modelled as truthy. -/
def Value.falsy : Value → Bool
  | .vNone => true
  | .vBool b => !b
  | .vInt n => n == 0
  | .vFloat q => q == 0
  | .vStr s => s.isEmpty
  | .vList xs => xs.isEmpty
  | .vTuple xs => xs.isEmpty
  | .vDict kvs => kvs.isEmpty
  | .vExotic _ _ => false

/-- Model of Python `v.get(key)`: defined on dicts (returning `none`
when the key is absent), raises AttributeError on any other type. -/
def Value.attrGet : Value → String → Except String (Option Value)
  | .vDict kvs, key => .ok (lookupStr kvs key)
  | _, _ => .error "AttributeError: no method get"

/-- Model of Python `v[key]` with a string key: defined on dicts
(raising KeyError when absent), raises TypeError on any other type. -/
def Value.subscript : Value → String → Except String Value
  | .vDict kvs, key =>
      match lookupStr kvs key with
      | some v => .ok v
      | none => .error "KeyError"
  | _, _ => .error "TypeError: not subscriptable"

/-- Model of Python `d, m, s = value`: succeeds on a list or tuple of
length exactly three, raises otherwise. -/
def unpack3 : Value → Except String (Value × Value × Value)
  | .vList [a, b, c] => .ok (a, b, c)
  | .vTuple [a, b, c] => .ok (a, b, c)
  | _ => .error "cannot unpack"

/-- Embedding of `_convert_to_degrees` (models.py lines 26-29):
`float(d) + float(m) / 60.0 + float(s) / 3600.0`. -/
def _convert_to_degrees (v : Value) : Except String ℚ :=
  match unpack3 v with
  | .error e => .error e
  | .ok (d, m, s) =>
      match pyFloat d with
      | .error e => .error e
      | .ok df =>
          match pyFloat m with
          | .error e => .error e
          | .ok mf =>
              match pyFloat s with
              | .error e => .error e
              | .ok sf => .ok (df + mf / 60 + sf / 3600)

/-- Model of the Python comparison `v == ref` between an optional
metadata value and a string literal: true exactly when the value is
the string `ref` (Python equality between a string and a value of
another type is False, never an error). -/
def isRefEq : Option Value → String → Bool
  | some (.vStr s), r => s == r
  | _, _ => false

/-- Embedding of the body of `extract_gps` (models.py lines 34-47),
before the enclosing catch-all except: every fallible step is
explicit, and the early `return None` on a falsy GPSInfo entry is the
`.ok none` branch. -/
def extract_gps_body (exif_data : Value) : Except String (Option (ℚ × ℚ)) :=
  match exif_data.attrGet "GPSInfo" with
  | .error e => .error e
  | .ok gpsOpt =>
      let gps := gpsOpt.getD .vNone
      if gps.falsy then .ok none
      else
        match gps.subscript "GPSLatitude" with
        | .error e => .error e
        | .ok latv =>
            match _convert_to_degrees latv with
            | .error e => .error e
            | .ok lat0 =>
                match gps.attrGet "GPSLatitudeRef" with
                | .error e => .error e
                | .ok latRef =>
                    let lat := if isRefEq latRef "S" then -lat0 else lat0
                    match gps.subscript "GPSLongitude" with
                    | .error e => .error e
                    | .ok lonv =>
                        match _convert_to_degrees lonv with
                        | .error e => .error e
                        | .ok lon0 =>
                            match gps.attrGet "GPSLongitudeRef" with
                            | .error e => .error e
                            | .ok lonRef =>
                                let lon := if isRefEq lonRef "W" then -lon0 else lon0
                                .ok (some (lat, lon))

/-- Embedding of `extract_gps` (models.py lines 32-50): the catch-all
`except Exception: return None` turns every error of the body into the
absence value. -/
def extract_gps (exif_data : Value) : Option (ℚ × ℚ) :=
  match extract_gps_body exif_data with
  | .ok r => r
  | .error _ => none

/-- The latitude/longitude fields of a Photo record (both nullable). -/
structure GpsFields where
  latitude : Option ℚ
  longitude : Option ℚ
deriving Repr, DecidableEq

/-- Embedding of models.py lines 145-148:
`self.longitude, self.latitude = extract_gps(exif_data)` inside
`try/except TypeError`.  When `extract_gps` returns a pair, tuple
unpacking assigns its first component (the latitude, per the
docstring of `extract_gps`) to the longitude field and its second
component to the latitude field.  When it returns None, unpacking
raises TypeError, which is caught, leaving both fields untouched. -/
def gps_assignment (exif_data : Value) (p : GpsFields) : GpsFields :=
  match extract_gps exif_data with
  | some (lat, lon) => { longitude := some lat, latitude := some lon }
  | none => p

/-- A sanitized degree/minute/second triple as it appears in sanitized
EXIF data (rationals have been turned into floats). -/
def gpsTriple (d m s : ℚ) : Value :=
  .vList [.vFloat d, .vFloat m, .vFloat s]

/-- A sanitized metadata dictionary holding a GPSInfo entry with the
given latitude/longitude triples and optional hemisphere references. -/
def mkGpsExif (latv : Value) (latRef : Option String) (lonv : Value) (lonRef : Option String) : Value :=
  .vDict [("GPSInfo", .vDict (
    [("GPSLatitude", latv)]
    ++ (match latRef with | some r => [("GPSLatitudeRef", Value.vStr r)] | none => [])
    ++ [("GPSLongitude", lonv)]
    ++ (match lonRef with | some r => [("GPSLongitudeRef", Value.vStr r)] | none => [])))]

/-- Concrete sanitized metadata used to exercise the orchestrator GPS
step: latitude 10 deg 30 min south, longitude 20 deg east (no
longitude reference). -/
def exifSouth : Value :=
  mkGpsExif (gpsTriple 10 30 0) (some "S") (gpsTriple 20 0 0) none

/-- The three stored file variants of a Photo. -/
inductive Variant : Type where
  | original : Variant
  | thumbnail : Variant
  | large : Variant
deriving Repr, DecidableEq

/-- The three file fields of a Photo record; `none` models an empty
(falsy) FieldFile. -/
structure PhotoFiles where
  original_image : Option String
  thumbnail : Option String
  large : Option String

/-- One `if instance.field: instance.field.delete(save=False)` step of
the post-delete hook.  The accumulator carries the storage-delete
calls issued so far and whether an exception has escaped; the hook has
no exception handling, so once a delete has raised, no further
statement runs. -/
def deleteStep (raises : Variant → Bool) (present : Bool) (v : Variant) :
    List Variant × Bool → List Variant × Bool
  | (calls, true) => (calls, true)
  | (calls, false) =>
      if present then (calls ++ [v], raises v) else (calls, false)

/-- Embedding of `delete_file_from_s3` (models.py lines 195-212), the
post_delete receiver: it attempts the original, thumbnail and large
deletes in that order, each guarded only by field truthiness.
`raises v` records whether the storage delete for variant `v` raises.
The result is the list of storage-delete calls issued, in order, and
whether an exception escaped the hook.  (The hook runs after the
database row is already deleted.) -/
def delete_file_from_s3 (inst : PhotoFiles) (raises : Variant → Bool) :
    List Variant × Bool :=
  deleteStep raises inst.large.isSome .large
    (deleteStep raises inst.thumbnail.isSome .thumbnail
      (deleteStep raises inst.original_image.isSome .original ([], false)))

/-- A Photo with all three file references populated. -/
def instAllFiles : PhotoFiles :=
  { original_image := some "photos/a/o.jpg", thumbnail := some "thumb.jpg", large := some "large.jpg" }

/-- Failure behaviour in which the storage delete of the original
raises and the other two would succeed. -/
def raisesOriginal : Variant → Bool
  | .original => true
  | .thumbnail => false
  | .large => false

/-- Embedding of the large-variant dimension logic (models.py lines
176-180): if the width exceeds 2000, resize to width 2000 and height
`int(float(height) * (2000 / float(width)))`; otherwise the image is
left as is.  Python int() truncates toward zero, which on these
nonnegative values is the floor. -/
def large_dims (w h : ℕ) : ℕ × ℕ :=
  if 2000 < w then (2000, (⌊(h : ℚ) * (2000 / (w : ℚ))⌋).toNat) else (w, h)

/-- A crop rectangle in PIL order (left, top, right, bottom). -/
structure Box where
  left : ℕ
  top : ℕ
  right : ℕ
  bottom : ℕ
deriving Repr, DecidableEq

/-- Embedding of the thumbnail crop computation (models.py lines
157-162): a square of side `min w h`, offset by floor division of the
slack on each axis. -/
def thumbnail_box (w h : ℕ) : Box :=
  let min_side := min w h
  let left := (w - min_side) / 2
  let top := (h - min_side) / 2
  { left := left, top := top, right := left + min_side, bottom := top + min_side }

/-- Embedding of the thumbnail resize (models.py line 165): the
cropped square is resized to exactly 256 by 256, whatever the source
dimensions. -/
def thumbnail_out_dims (_w _h : ℕ) : ℕ × ℕ := (256, 256)

/-- The save-relevant state of a Photo instance: the Django
`_state.adding` flag (true exactly until the first successful INSERT),
whether the record has an original image, and how many times the
ingestion pipeline `process_images_and_exif` has run on it. -/
structure PhotoState where
  adding : Bool
  hasOriginal : Bool
  processedCount : ℕ
deriving Repr, DecidableEq

/-- Embedding of `Photo.save` (models.py lines 103-112): `creating`
captures `_state.adding` before the super().save() call, which clears
the flag; the pipeline runs iff `creating and self.original_image`.
The pipeline itself persists through `super().save(update_fields=...)`
(line 187), which does not re-enter `Photo.save`, so a pipeline run
only increments the run counter. -/
def photo_save (p : PhotoState) : PhotoState :=
  let creating := p.adding
  let afterInsert : PhotoState := { p with adding := false }
  if creating && p.hasOriginal then
    { afterInsert with processedCount := afterInsert.processedCount + 1 }
  else afterInsert

/-- A sequence of `n` consecutive saves of the same Photo instance. -/
def photo_saves : PhotoState → ℕ → PhotoState
  | p, 0 => p
  | p, n + 1 => photo_saves (photo_save p) n

/-- A sample metadata value built only of primitives, mappings and
sequences, used to exercise the structure-preservation theorem. -/
def sampleJsonOnly : Value :=
  .vDict [("Model", .vStr "X100"), ("Sizes", .vTuple [.vInt 1, .vNone]),
          ("Chain", .vList [.vDict [("k", .vFloat (3/2))]])]

/-! Rewriting equations for the two recursive functions on `Value`. -/

@[simp] theorem make_json_safe_vNone : _make_json_safe .vNone = .vNone := by
  simp [_make_json_safe]

@[simp] theorem make_json_safe_vBool (b : Bool) : _make_json_safe (.vBool b) = .vBool b := by
  simp [_make_json_safe]

@[simp] theorem make_json_safe_vInt (n : ℤ) : _make_json_safe (.vInt n) = .vInt n := by
  simp [_make_json_safe]

@[simp] theorem make_json_safe_vFloat (q : ℚ) : _make_json_safe (.vFloat q) = .vFloat q := by
  simp [_make_json_safe]

@[simp] theorem make_json_safe_vStr (s : String) : _make_json_safe (.vStr s) = .vStr s := by
  simp [_make_json_safe]

@[simp] theorem make_json_safe_vList (xs : List Value) :
    _make_json_safe (.vList xs) = .vList (xs.map _make_json_safe) := by
  rw [_make_json_safe]
  simp [List.map_attach, List.pmap_eq_map]

@[simp] theorem make_json_safe_vTuple (xs : List Value) :
    _make_json_safe (.vTuple xs) = .vList (xs.map _make_json_safe) := by
  rw [_make_json_safe]
  simp [List.map_attach, List.pmap_eq_map]

@[simp] theorem make_json_safe_vDict (kvs : List (String × Value)) :
    _make_json_safe (.vDict kvs) = .vDict (kvs.map (fun kv => (kv.1, _make_json_safe kv.2))) := by
  rw [_make_json_safe]
  simp [List.map_attach, List.pmap_eq_map]

@[simp] theorem make_json_safe_vExotic (conv : Option ℚ) (txt : String) :
    _make_json_safe (.vExotic conv txt) =
      (match conv with | some q => .vFloat q | none => .vStr txt) := by
  cases conv <;> simp [_make_json_safe, pyFloat]

@[simp] theorem specSanitize_vNone : specSanitize .vNone = .vNone := by
  simp [specSanitize]

@[simp] theorem specSanitize_vBool (b : Bool) : specSanitize (.vBool b) = .vBool b := by
  simp [specSanitize]

@[simp] theorem specSanitize_vInt (n : ℤ) : specSanitize (.vInt n) = .vInt n := by
  simp [specSanitize]

@[simp] theorem specSanitize_vFloat (q : ℚ) : specSanitize (.vFloat q) = .vFloat q := by
  simp [specSanitize]

@[simp] theorem specSanitize_vStr (s : String) : specSanitize (.vStr s) = .vStr s := by
  simp [specSanitize]

@[simp] theorem specSanitize_vList (xs : List Value) :
    specSanitize (.vList xs) = .vList (xs.map specSanitize) := by
  rw [specSanitize]
  simp [List.map_attach, List.pmap_eq_map]

@[simp] theorem specSanitize_vTuple (xs : List Value) :
    specSanitize (.vTuple xs) = .vList (xs.map specSanitize) := by
  rw [specSanitize]
  simp [List.map_attach, List.pmap_eq_map]

@[simp] theorem specSanitize_vDict (kvs : List (String × Value)) :
    specSanitize (.vDict kvs) = .vDict (kvs.map (fun kv => (kv.1, specSanitize kv.2))) := by
  rw [specSanitize]
  simp [List.map_attach, List.pmap_eq_map]

/-- Induction principle for `Value` with element-wise hypotheses for
the nested lists. -/
theorem Value.inductionOn (P : Value → Prop)
    (h0 : P .vNone) (h1 : ∀ b, P (.vBool b)) (h2 : ∀ n, P (.vInt n))
    (h3 : ∀ q, P (.vFloat q)) (h4 : ∀ s, P (.vStr s))
    (h5 : ∀ xs, (∀ v ∈ xs, P v) → P (.vList xs))
    (h6 : ∀ xs, (∀ v ∈ xs, P v) → P (.vTuple xs))
    (h7 : ∀ kvs, (∀ k v, (k, v) ∈ kvs → P v) → P (.vDict kvs))
    (h8 : ∀ conv txt, P (.vExotic conv txt)) :
    ∀ v, P v
  | .vNone => h0
  | .vBool b => h1 b
  | .vInt n => h2 n
  | .vFloat q => h3 q
  | .vStr s => h4 s
  | .vList xs =>
      h5 xs (fun v hv => Value.inductionOn P h0 h1 h2 h3 h4 h5 h6 h7 h8 v)
  | .vTuple xs =>
      h6 xs (fun v hv => Value.inductionOn P h0 h1 h2 h3 h4 h5 h6 h7 h8 v)
  | .vDict kvs =>
      h7 kvs (fun k v hv => Value.inductionOn P h0 h1 h2 h3 h4 h5 h6 h7 h8 v)
  | .vExotic conv txt => h8 conv txt
termination_by v => sizeOf v
decreasing_by
  all_goals (have hlt := List.sizeOf_lt_of_mem hv; simp at hlt ⊢; omega)

/-- The sanitizer always lands in the JSON-representable fragment. -/
theorem jsonSafe_of_make_json_safe : ∀ v, JsonSafe (_make_json_safe v) := by
  intro v
  induction v using Value.inductionOn with
  | h0 => simpa using JsonSafe.snone
  | h1 b => simpa using JsonSafe.sbool b
  | h2 n => simpa using JsonSafe.sint n
  | h3 q => simpa using JsonSafe.sfloat q
  | h4 s => simpa using JsonSafe.sstr s
  | h5 xs ih =>
      rw [make_json_safe_vList]
      refine JsonSafe.slist _ (fun w hw => ?_)
      rw [List.mem_map] at hw
      obtain ⟨v, hv, rfl⟩ := hw
      exact ih v hv
  | h6 xs ih =>
      rw [make_json_safe_vTuple]
      refine JsonSafe.slist _ (fun w hw => ?_)
      rw [List.mem_map] at hw
      obtain ⟨v, hv, rfl⟩ := hw
      exact ih v hv
  | h7 kvs ih =>
      rw [make_json_safe_vDict]
      refine JsonSafe.sdict _ (fun kw hkw => ?_)
      rw [List.mem_map] at hkw
      obtain ⟨⟨k, v⟩, hv, rfl⟩ := hkw
      exact ih k v hv
  | h8 conv txt =>
      cases conv <;> simp <;> constructor

/-- The sanitizer is the identity on the JSON-representable fragment. -/
theorem make_json_safe_of_jsonSafe : ∀ v, JsonSafe v → _make_json_safe v = v := by
  intro v h
  induction h with
  | snone => simp
  | sbool b => simp
  | sint n => simp
  | sfloat q => simp
  | sstr s => simp
  | slist xs hmem ih =>
      rw [make_json_safe_vList]
      have hmap : List.map _make_json_safe xs = List.map id xs :=
        List.map_congr_left (fun a ha => by simp [ih a ha])
      simp [hmap]
  | sdict kvs hmem ih =>
      rw [make_json_safe_vDict]
      have hmap : List.map (fun kv => (kv.1, _make_json_safe kv.2)) kvs = List.map id kvs :=
        List.map_congr_left (fun kv hkv => by cases kv with | mk k w => simpa using ih (k, w) hkv)
      simp [hmap]

/-- C10: the metadata sanitizer is idempotent: applying
`_make_json_safe` to its own output returns that output unchanged. -/
theorem sanitizer_idempotent : ∀ v, _make_json_safe (_make_json_safe v) = _make_json_safe v :=
  fun v => make_json_safe_of_jsonSafe _ (jsonSafe_of_make_json_safe v)

/-- C5: the metadata sanitizer is a total function: it never fails on
any input, and an exotic leaf (not a primitive, mapping or sequence)
is mapped to its floating-point value when float() succeeds and to its
textual representation when float() raises; every output is
JSON-representable. -/
theorem sanitizer_total_on_exotic :
    (∀ conv txt q, pyFloat (.vExotic conv txt) = .ok q →
        _make_json_safe (.vExotic conv txt) = .vFloat q) ∧
    (∀ conv txt msg, pyFloat (.vExotic conv txt) = .error msg →
        _make_json_safe (.vExotic conv txt) = .vStr txt) ∧
    (∀ v, JsonSafe (_make_json_safe v)) := by
  refine ⟨?_, ?_, jsonSafe_of_make_json_safe⟩
  · intro conv txt q h
    cases conv with
    | some q0 =>
        simp [pyFloat] at h
        subst h
        simp
    | none => simp [pyFloat] at h
  · intro conv txt msg h
    cases conv with
    | some q0 => simp [pyFloat] at h
    | none => simp

/-- Witness for C5 at concrete exotic leaves: a rational that converts
to 7/2, and a zero-denominator rational whose float() raises. -/
theorem sanitizer_total_on_exotic_witness :
    _make_json_safe (.vExotic (some (7/2)) "3.5") = .vFloat (7/2) ∧
    _make_json_safe (.vExotic none "IFDRational(1, 0)") = .vStr "IFDRational(1, 0)" :=
  ⟨sanitizer_total_on_exotic.1 (some (7/2)) "3.5" (7/2) rfl,
   sanitizer_total_on_exotic.2.1 none "IFDRational(1, 0)" "could not convert to float" rfl⟩

/-- C6: on inputs built only of primitives, mappings and ordered
sequences, the sanitizer output is structurally isomorphic to the
input: it equals the spec-side element-wise recursion that leaves
primitive leaves unchanged and preserves structure and order, every
output is JSON-representable, and lists keep their length and dicts
their key sequence. -/
theorem sanitizer_structure_preserving :
    (∀ v, JsonOnly v → _make_json_safe v = specSanitize v) ∧
    (∀ v, JsonOnly v → JsonSafe (_make_json_safe v)) ∧
    (∀ xs, ∃ ys, _make_json_safe (.vList xs) = .vList ys ∧ ys.length = xs.length) ∧
    (∀ kvs, ∃ ws, _make_json_safe (.vDict kvs) = .vDict ws ∧
        ws.map Prod.fst = kvs.map Prod.fst ∧ ws.length = kvs.length) := by
  refine ⟨?_, fun v _ => jsonSafe_of_make_json_safe v, ?_, ?_⟩
  · intro v h
    induction h with
    | jnone => simp
    | jbool b => simp
    | jint n => simp
    | jfloat q => simp
    | jstr s => simp
    | jlist xs hmem ih =>
        rw [make_json_safe_vList, specSanitize_vList]
        congr 1
        exact List.map_congr_left ih
    | jtuple xs hmem ih =>
        rw [make_json_safe_vTuple, specSanitize_vTuple]
        congr 1
        exact List.map_congr_left ih
    | jdict kvs hmem ih =>
        rw [make_json_safe_vDict, specSanitize_vDict]
        congr 1
        refine List.map_congr_left (fun kv hkv => ?_)
        rw [ih kv hkv]
  · intro xs
    exact ⟨xs.map _make_json_safe, make_json_safe_vList xs, by simp⟩
  · intro kvs
    refine ⟨kvs.map (fun kv => (kv.1, _make_json_safe kv.2)), make_json_safe_vDict kvs, ?_, by simp⟩
    rw [List.map_map]
    rfl

/-- Witness for C6 at a concrete nested metadata value. -/
theorem sanitizer_structure_preserving_witness :
    _make_json_safe sampleJsonOnly = specSanitize sampleJsonOnly := by
  refine sanitizer_structure_preserving.1 sampleJsonOnly ?_
  refine JsonOnly.jdict _ (fun kv hkv => ?_)
  simp only [sampleJsonOnly, List.mem_cons, List.not_mem_nil, or_false] at hkv
  rcases hkv with rfl | rfl | rfl
  · exact JsonOnly.jstr _
  · refine JsonOnly.jtuple _ (fun v hv => ?_)
    simp only [List.mem_cons, List.not_mem_nil, or_false] at hv
    rcases hv with rfl | rfl
    · exact JsonOnly.jint _
    · exact JsonOnly.jnone
  · refine JsonOnly.jlist _ (fun v hv => ?_)
    simp only [List.mem_cons, List.not_mem_nil, or_false] at hv
    rcases hv with rfl
    refine JsonOnly.jdict _ (fun kw hkw => ?_)
    simp only [List.mem_cons, List.not_mem_nil, or_false] at hkw
    rcases hkw with rfl
    exact JsonOnly.jfloat _

/-- C7: on metadata whose GPSInfo entry holds well-formed
degree/minute/second triples, the resolver converts each triple via
degrees + minutes/60 + seconds/3600, negating latitude exactly for
hemisphere reference S and longitude exactly for W; in particular
latitude (10, 30, 0) south gives -10.5 and longitude (20, 0, 0) with
reference E or no reference gives 20. -/
theorem extract_gps_wellformed :
    (∀ (d1 m1 s1 d2 m2 s2 : ℚ) (latRef lonRef : Option String),
        extract_gps (mkGpsExif (gpsTriple d1 m1 s1) latRef (gpsTriple d2 m2 s2) lonRef) =
          some ((if latRef = some "S" then -(d1 + m1 / 60 + s1 / 3600)
                 else d1 + m1 / 60 + s1 / 3600),
                (if lonRef = some "W" then -(d2 + m2 / 60 + s2 / 3600)
                 else d2 + m2 / 60 + s2 / 3600))) ∧
    extract_gps (mkGpsExif (gpsTriple 10 30 0) (some "S") (gpsTriple 20 0 0) (some "E")) =
      some (-(21/2 : ℚ), 20) ∧
    extract_gps (mkGpsExif (gpsTriple 10 30 0) (some "S") (gpsTriple 20 0 0) none) =
      some (-(21/2 : ℚ), 20) := by
  have hgen : ∀ (d1 m1 s1 d2 m2 s2 : ℚ) (latRef lonRef : Option String),
      extract_gps (mkGpsExif (gpsTriple d1 m1 s1) latRef (gpsTriple d2 m2 s2) lonRef) =
        some ((if latRef = some "S" then -(d1 + m1 / 60 + s1 / 3600)
               else d1 + m1 / 60 + s1 / 3600),
              (if lonRef = some "W" then -(d2 + m2 / 60 + s2 / 3600)
               else d2 + m2 / 60 + s2 / 3600)) := by
    intro d1 m1 s1 d2 m2 s2 latRef lonRef
    rcases latRef with _ | r1 <;> rcases lonRef with _ | r2
    · simp [extract_gps, extract_gps_body, mkGpsExif, gpsTriple, Value.attrGet,
        Value.subscript, lookupStr, Value.falsy, _convert_to_degrees, unpack3, pyFloat, isRefEq]
    · by_cases h2 : r2 = "W" <;>
        simp [extract_gps, extract_gps_body, mkGpsExif, gpsTriple, Value.attrGet,
          Value.subscript, lookupStr, Value.falsy, _convert_to_degrees, unpack3, pyFloat,
          isRefEq, h2]
    · by_cases h1 : r1 = "S" <;>
        simp [extract_gps, extract_gps_body, mkGpsExif, gpsTriple, Value.attrGet,
          Value.subscript, lookupStr, Value.falsy, _convert_to_degrees, unpack3, pyFloat,
          isRefEq, h1]
    · by_cases h1 : r1 = "S" <;> by_cases h2 : r2 = "W" <;>
        simp [extract_gps, extract_gps_body, mkGpsExif, gpsTriple, Value.attrGet,
          Value.subscript, lookupStr, Value.falsy, _convert_to_degrees, unpack3, pyFloat,
          isRefEq, h1, h2]
  refine ⟨hgen, ?_, ?_⟩
  · rw [hgen 10 30 0 20 0 0 (some "S") (some "E")]
    norm_num
    decide
  · rw [hgen 10 30 0 20 0 0 (some "S") none]
    norm_num
    decide

/-- C8: the GPS resolver never surfaces an error: a metadata value
without a usable GPSInfo dict entry, a falsy GPSInfo entry, or any
exception raised by the lookup/conversion body all yield the absence
value. -/
theorem extract_gps_never_raises :
    (∀ kvs, lookupStr kvs "GPSInfo" = none → extract_gps (.vDict kvs) = none) ∧
    (∀ exif msg, extract_gps_body exif = .error msg → extract_gps exif = none) ∧
    (∀ kvs gps, lookupStr kvs "GPSInfo" = some gps → gps.falsy = true →
        extract_gps (.vDict kvs) = none) := by
  refine ⟨?_, ?_, ?_⟩
  · intro kvs h
    simp [extract_gps, extract_gps_body, Value.attrGet, h, Value.falsy]
  · intro exif msg h
    simp [extract_gps, h]
  · intro kvs gps h hf
    simp [extract_gps, extract_gps_body, Value.attrGet, h, hf]

/-- Witness for C8: metadata with no GPSInfo key, metadata that is not
even a dict (attribute lookup raises), and an empty GPSInfo entry. -/
theorem extract_gps_never_raises_witness :
    extract_gps (.vDict [("Model", .vStr "X100")]) = none ∧
    extract_gps (.vStr "not a dict") = none ∧
    extract_gps (.vDict [("GPSInfo", .vDict [])]) = none :=
  ⟨extract_gps_never_raises.1 [("Model", .vStr "X100")] rfl,
   extract_gps_never_raises.2.1 (.vStr "not a dict") "AttributeError: no method get" rfl,
   extract_gps_never_raises.2.2 [("GPSInfo", .vDict [])] (.vDict []) rfl rfl⟩

/-- C1: evaluation of the orchestrator GPS step at sanitized metadata
whose resolver result is latitude -10.5, longitude 20: the code stores
the resolver latitude component in the longitude field and the
resolver longitude component in the latitude field (models.py line
146 unpacks the (lat, lon) pair in the wrong order); when the
resolver yields no coordinates, both fields stay absent and the
caught TypeError does not escape. -/
theorem gps_orchestrator_swaps_components :
    extract_gps exifSouth = some (-(21/2 : ℚ), 20) ∧
    gps_assignment exifSouth { latitude := none, longitude := none } =
      { latitude := some 20, longitude := some (-(21/2 : ℚ)) } ∧
    gps_assignment (.vDict []) { latitude := none, longitude := none } =
      { latitude := none, longitude := none } := by
  have h : extract_gps exifSouth = some (-(21/2 : ℚ), 20) := by
    simp [exifSouth, extract_gps, extract_gps_body, mkGpsExif, gpsTriple, Value.attrGet,
      Value.subscript, lookupStr, Value.falsy, _convert_to_degrees, unpack3, pyFloat, isRefEq]
    norm_num
  refine ⟨h, ?_, ?_⟩
  · simp [gps_assignment, h]
  · simp [gps_assignment, extract_gps, extract_gps_body, Value.attrGet, lookupStr, Value.falsy]

/-- C2 counterexample: with all three file references populated and a
storage backend whose delete of the original raises, the hook issues
only one storage-delete call — the failure prevents the delete
attempts for the other two variants, contrary to the claim. -/
theorem delete_hook_not_independent :
    delete_file_from_s3 instAllFiles raisesOriginal = ([.original], true) ∧
    (delete_file_from_s3 instAllFiles raisesOriginal).1.length ≠ 3 := by
  refine ⟨?_, ?_⟩ <;> decide

/-- C2 as amended: with all three file references populated, the hook
issues three storage-delete calls, one per variant, provided no
individual delete fails; a delete that raises stops the hook, so the
deletes for later variants are not attempted (the database record is
already removed when the hook runs). -/
theorem delete_hook_three_calls (inst : PhotoFiles) (raises : Variant → Bool)
    (h1 : inst.original_image.isSome = true)
    (h2 : inst.thumbnail.isSome = true)
    (h3 : inst.large.isSome = true) :
    ((∀ v, raises v = false) →
        delete_file_from_s3 inst raises = ([.original, .thumbnail, .large], false)) ∧
    (raises .original = true →
        delete_file_from_s3 inst raises = ([.original], true)) := by
  constructor <;> intro hr <;>
    simp [delete_file_from_s3, deleteStep, h1, h2, h3, hr]

/-- Witness for the amended C2: all three references populated and no
delete failing gives exactly the three calls. -/
theorem delete_hook_three_calls_witness :
    delete_file_from_s3 instAllFiles (fun _ => false) =
      ([.original, .thumbnail, .large], false) :=
  (delete_hook_three_calls instAllFiles (fun _ => false) rfl rfl rfl).1 (fun _ => rfl)

/-- C3 counterexample: a 3000 by 1999 source is resized to height
int(1999 * (2000/3000)) = 1332, while the claimed formula
round(1999 * 2000/3000) gives 1333. -/
theorem large_dims_not_round :
    large_dims 3000 1999 = (2000, 1332) ∧
    round ((1999 : ℚ) * 2000 / 3000) = 1333 ∧
    (1332 : ℕ) ≠ 1333 := by
  refine ⟨?_, ?_, by decide⟩
  · have : ⌊(1999 : ℚ) * (2000 / (3000 : ℚ))⌋ = 1332 := by
      rw [show (1999 : ℚ) * (2000 / (3000 : ℚ)) = 3998/3 by norm_num]
      rw [Int.floor_eq_iff]
      norm_num
    simp [large_dims, this]
  · rw [round_eq, show (1999 : ℚ) * 2000 / 3000 + 1/2 = 7999/6 by norm_num]
    rw [Int.floor_eq_iff]
    norm_num

/-- C3 as amended: the large-variant generator leaves dimensions
unchanged when the width is at most 2000 and otherwise produces width
2000 and height equal to the floor (Python int truncation) of
original_height * 2000 / original_width; a 3000 by 1500 source yields
2000 by 1000 and a 1000 by 800 source is unchanged. -/
theorem large_dims_caps_width (w h : ℕ) :
    (w ≤ 2000 → large_dims w h = (w, h)) ∧
    (2000 < w → large_dims w h = (2000, (⌊(h : ℚ) * 2000 / (w : ℚ)⌋).toNat)) ∧
    large_dims 3000 1500 = (2000, 1000) ∧
    large_dims 1000 800 = (1000, 800) := by
  refine ⟨?_, ?_, ?_, ?_⟩
  · intro hw
    simp [large_dims, Nat.not_lt.mpr hw]
  · intro hw
    simp [large_dims, hw, mul_div_assoc]
  · have : ⌊(1500 : ℚ) * (2000 / (3000 : ℚ))⌋ = 1000 := by
      rw [show (1500 : ℚ) * (2000 / (3000 : ℚ)) = 1000 by norm_num]
      simp
    simp [large_dims, this]
  · simp [large_dims]

/-- Witness for the amended C3 at the two dimensions named by the
spec. -/
theorem large_dims_caps_width_witness :
    large_dims 1000 800 = (1000, 800) ∧
    large_dims 3000 1500 = (2000, (⌊(1500 : ℚ) * 2000 / (3000 : ℚ)⌋).toNat) :=
  ⟨(large_dims_caps_width 1000 800).1 (by norm_num),
   (large_dims_caps_width 3000 1500).2.1 (by norm_num)⟩

/-- C4: the thumbnail generator crops a centered square of side
min(w, h), with the offset along each axis equal to the floor of half
the slack on that axis (so the offset along the longer side is
(longer - shorter) / 2 and the other offset is 0), then resizes the
square to exactly 256 by 256; a 4000 by 2000 source is cropped to the
horizontal center band (1000, 0, 3000, 2000). -/
theorem thumbnail_centered_square (w h : ℕ) :
    ((thumbnail_box w h).right - (thumbnail_box w h).left = min w h) ∧
    ((thumbnail_box w h).bottom - (thumbnail_box w h).top = min w h) ∧
    ((thumbnail_box w h).left = (w - min w h) / 2) ∧
    ((thumbnail_box w h).top = (h - min w h) / 2) ∧
    (h ≤ w → (thumbnail_box w h).left = (w - h) / 2 ∧ (thumbnail_box w h).top = 0) ∧
    (w ≤ h → (thumbnail_box w h).left = 0 ∧ (thumbnail_box w h).top = (h - w) / 2) ∧
    (thumbnail_out_dims w h = (256, 256)) ∧
    (thumbnail_box 4000 2000 = { left := 1000, top := 0, right := 3000, bottom := 2000 }) := by
  refine ⟨by simp [thumbnail_box], by simp [thumbnail_box], by simp [thumbnail_box],
    by simp [thumbnail_box], ?_, ?_, rfl, by decide⟩
  · intro hw
    constructor <;> simp [thumbnail_box, Nat.min_eq_right hw]
  · intro hw
    constructor <;> simp [thumbnail_box, Nat.min_eq_left hw]

/-- Witness for C4 at the 4000 by 2000 source named by the spec. -/
theorem thumbnail_centered_square_witness :
    (thumbnail_box 4000 2000).left = (4000 - 2000) / 2 ∧
    (thumbnail_box 4000 2000).top = 0 :=
  (thumbnail_centered_square 4000 2000).2.2.2.2.1 (by norm_num)

/-- Once the adding flag is cleared, a save is a no-op on the modelled
state, so it runs no processing. -/
theorem photo_save_fixed (p : PhotoState) (hp : p.adding = false) : photo_save p = p := by
  cases p
  simp_all [photo_save]

/-- Any number of further saves after the flag is cleared leaves the
state unchanged. -/
theorem photo_saves_fixed (n : ℕ) : ∀ p : PhotoState, p.adding = false → photo_saves p n = p := by
  induction n with
  | zero => intro p hp; rfl
  | succ m ih =>
      intro p hp
      rw [photo_saves, photo_save_fixed p hp, ih p hp]

/-- C9: starting from a freshly constructed Photo (adding flag set,
pipeline never run), any sequence of at least one save runs the
ingestion pipeline exactly once when the photo has an original image
and never otherwise, and a save of an already-persisted photo never
runs the pipeline. -/
theorem process_runs_exactly_once (orig : Bool) (n : ℕ) (hn : 1 ≤ n) :
    (photo_saves { adding := true, hasOriginal := orig, processedCount := 0 } n).processedCount =
      (if orig then 1 else 0) ∧
    (∀ p : PhotoState, p.adding = false → (photo_save p).processedCount = p.processedCount) := by
  constructor
  · obtain ⟨m, rfl⟩ : ∃ m, n = m + 1 := ⟨n - 1, by omega⟩
    have h1 : photo_save { adding := true, hasOriginal := orig, processedCount := 0 } =
        { adding := false, hasOriginal := orig, processedCount := if orig then 1 else 0 } := by
      cases orig <;> simp [photo_save]
    rw [photo_saves, h1, photo_saves_fixed m _ rfl]
  · intro p hp
    rw [photo_save_fixed p hp]

/-- Witness for C9: three consecutive saves of a photo with an
original image run the pipeline exactly once. -/
theorem process_runs_exactly_once_witness :
    (photo_saves { adding := true, hasOriginal := true, processedCount := 0 } 3).processedCount = 1 := by
  have := (process_runs_exactly_once true 3 (by norm_num)).1
  simpa using this

end Gallery
